import Mathlib

/-
  Verification of the resilient HTTP client / circuit-breaker variants of this
  repository.  Each variant is shallowly embedded: the breaker's mutable fields
  become a structure, every method becomes a state-passing function, wall-clock
  time (Date.now()) is an explicit Nat argument, and the abstract transport
  action is represented by its observable outcome.  JS numeric comparisons such
  as `now - t >= d` are embedded as `t + d <= now` (exact over the integers
  arising in any execution, with no Nat-subtraction truncation).
-/

/-- Breaker states shared by every variant: the string union
'CLOSED' | 'OPEN' | 'HALF-OPEN' of resilient-client.ts line 4 and the
CircuitState enums of the other variants. -/
inductive BreakerState where
  | closed
  | opened
  | halfOpen
deriving DecidableEq, Repr

namespace Taller

/-- Readonly field FAILURE_THRESHOLD = 3 of ResilientClient
(modulo-1-fundamentos/taller/src/resilient-client.ts line 27). -/
def FAILURE_THRESHOLD : Nat := 3

/-- Readonly field RESET_TIMEOUT_MS = 5000 (resilient-client.ts line 28). -/
def RESET_TIMEOUT_MS : Nat := 5000

/-- Readonly field FETCH_TIMEOUT_MS = 3000 (resilient-client.ts line 29). -/
def FETCH_TIMEOUT_MS : Nat := 3000

/-- Mutable breaker fields of ResilientClient (resilient-client.ts lines
32-34), with their initializers as defaults. -/
structure TallerClient where
  state : BreakerState := .closed
  failureCount : Nat := 0
  lastFailureTime : Nat := 0
deriving DecidableEq, Repr

/-- A freshly constructed ResilientClient. -/
def initialClient : TallerClient := {}

/-- ResilientClient.failure (resilient-client.ts lines 76-91): increment the
count, stamp the failure time, then HALF-OPEN goes back to OPEN and CLOSED
goes to OPEN once the count reaches the threshold. -/
def failure (now : Nat) (s : TallerClient) : TallerClient :=
  let s1 : TallerClient :=
    { s with failureCount := s.failureCount + 1, lastFailureTime := now }
  if s1.state = .halfOpen then
    { s1 with state := .opened }
  else if s1.state = .closed ∧ FAILURE_THRESHOLD ≤ s1.failureCount then
    { s1 with state := .opened }
  else
    s1

/-- ResilientClient.success (resilient-client.ts lines 96-107): the branches
on the current state only log; the method ends by unconditionally setting
failureCount to 0 and the state to CLOSED. -/
def success (s : TallerClient) : TallerClient :=
  { s with failureCount := 0, state := .closed }

/-- Observable outcome of one execute call. -/
inductive ExecOutcome where
  /-- CircuitBreakerOpenError was thrown before the action ran. -/
  | failFast
  /-- The action resolved and its result was returned. -/
  | ok
  /-- The action rejected and the error was rethrown. -/
  | err
deriving DecidableEq, Repr

/-- Result of one execute call: the breaker state afterwards, whether the
wrapped action was invoked at all, and the outcome surfaced to the caller. -/
structure ExecResult where
  state : TallerClient
  invoked : Bool
  outcome : ExecOutcome
deriving DecidableEq, Repr

/-- The try/catch body of ResilientClient.execute (resilient-client.ts lines
57-69), with the awaited action abstracted to whether it resolves. -/
def runAction (now : Nat) (actionOk : Bool) (s : TallerClient) : ExecResult :=
  if actionOk then
    ⟨success s, true, .ok⟩
  else
    ⟨failure now s, true, .err⟩

/-- ResilientClient.execute (resilient-client.ts lines 42-70).  While OPEN it
moves to HALF-OPEN when `now > lastFailureTime + RESET_TIMEOUT_MS` and
otherwise throws CircuitBreakerOpenError without touching the action. -/
def execute (now : Nat) (actionOk : Bool) (s : TallerClient) : ExecResult :=
  if s.state = .opened then
    if s.lastFailureTime + RESET_TIMEOUT_MS < now then
      runAction now actionOk { s with state := .halfOpen }
    else
      ⟨s, false, .failFast⟩
  else
    runAction now actionOk s

/-- ResilientClient.getBreakerState (resilient-client.ts lines 188-190):
returns the state field; embedded as value plus unchanged client to make the
absence of mutation a provable fact. -/
def getBreakerState (s : TallerClient) : BreakerState × TallerClient :=
  (s.state, s)

/-- The User payload shape expected from the external API
(resilient-client.ts lines 7-11). -/
structure UserRecord where
  id : Nat
  name : String
  email : String
deriving DecidableEq, Repr

/-- What a getUserData call does from the caller's point of view: the promise
either rejects (only the userId validation error escapes) or resolves, where
resolving with `none` models resolving with null. -/
inductive UserDataResult where
  | thrown (msg : String)
  | resolved (value : Option UserRecord)
deriving DecidableEq, Repr

/-- ResilientClient.getUserData (resilient-client.ts lines 115-183) with the
fetch action abstracted to its outcome: a falsy userId throws; otherwise the
call is run through execute, a success resolves with the fetched user, and
the catch-all logs and resolves with null (lines 173-182). -/
def getUserData (now : Nat) (userIdTruthy : Bool) (actionOk : Bool)
    (fetched : UserRecord) (s : TallerClient) : TallerClient × UserDataResult :=
  if !userIdTruthy then
    (s, .thrown ("userId is required."))
  else
    let r := execute now actionOk s
    match r.outcome with
    | .ok => (r.state, .resolved (some fetched))
    | _ => (r.state, .resolved none)

/-- A raw error produced by the awaited fetch pipeline: either the
AbortError raised after controller.abort(), or any other error with its
message. -/
inductive RawFetchError where
  | abortError
  | other (msg : String)
deriving DecidableEq, Repr

/-- The failure surfaced past the timeout boundary: either the specific
timeout Error constructed in the aborted branch, or the original error
rethrown unchanged. -/
inductive SurfacedFailure where
  | fetchTimeout (msg : String)
  | passthrough (e : RawFetchError)
deriving DecidableEq, Repr

/-- Catch clause of fetchAction inside getUserData (resilient-client.ts lines
157-164): when the abort controller has fired, a dedicated timeout Error is
thrown; otherwise the caught error is rethrown. -/
def fetchActionCatch (signalAborted : Bool) (e : RawFetchError) : SurfacedFailure :=
  if signalAborted then
    .fetchTimeout ("Fetch timeout after " ++ toString FETCH_TIMEOUT_MS ++ "ms")
  else
    .passthrough e

/-- A run of consecutive reported failures: ResilientClient.failure applied
once per element of the list of failure times, oldest first. -/
def applyFailures (times : List Nat) (s : TallerClient) : TallerClient :=
  times.foldl (fun acc t => failure t acc) s

/-- A concrete user payload, for witnesses. -/
def sampleUser : UserRecord := { id := 1, name := ("Ana"), email := ("a@x.y") }

end Taller

namespace TypesIndex

/-- Fields of the ResilientClient class of
modulo-1-fundamentos/taller/src/types/index.ts (lines 671-681), with the
constructor's `?? 3` / `?? 5000` defaults. -/
structure IndexClient where
  failureThreshold : Nat := 3
  halfOpenAfterMs : Nat := 5000
  state : BreakerState := .closed
  failureCount : Nat := 0
  lastFailureTime : Option Nat := none
  halfOpenProbeInProgress : Bool := false
deriving DecidableEq, Repr

/-- Verdict of the admission check: either the request may proceed or it is
returned as an HttpResponseErr carrying the given error string. -/
inductive Admission where
  | granted
  | rejected (error : String)
deriving DecidableEq, Repr

/-- ResilientClient.checkCircuitState (types/index.ts lines 816-856).  First
OPEN moves to HALF_OPEN when `now - lastFailureTime >= halfOpenAfterMs`
(embedded as `t + halfOpenAfterMs <= now`), then CLOSED is granted, OPEN is
rejected fail-fast, and HALF_OPEN admits exactly one probe via the
halfOpenProbeInProgress latch. -/
def checkCircuitState (now : Nat) (s : IndexClient) : IndexClient × Admission :=
  let s1 : IndexClient :=
    match s.lastFailureTime with
    | some t =>
      if s.state = .opened ∧ t + s.halfOpenAfterMs ≤ now then
        { s with state := .halfOpen, halfOpenProbeInProgress := false }
      else s
    | none => s
  if s1.state = .closed then
    (s1, .granted)
  else if s1.state = .opened then
    (s1, .rejected ("CircuitOpenFailFast"))
  else if s1.halfOpenProbeInProgress then
    (s1, .rejected ("HalfOpenProbeRejected"))
  else
    ({ s1 with halfOpenProbeInProgress := true }, .granted)

/-- ResilientClient.handleFailure (types/index.ts lines 861-880), state part:
count and stamp the failure, CLOSED opens at the threshold, and a failed
HALF_OPEN probe reopens and clears the probe latch. -/
def handleFailure (now : Nat) (s : IndexClient) : IndexClient :=
  let s1 : IndexClient :=
    { s with failureCount := s.failureCount + 1, lastFailureTime := some now }
  let s2 : IndexClient :=
    if s1.state = .closed ∧ s1.failureThreshold ≤ s1.failureCount then
      { s1 with state := .opened }
    else s1
  if s2.state = .halfOpen then
    { s2 with state := .opened, halfOpenProbeInProgress := false }
  else s2

/-- ResilientClient.handleSuccess (types/index.ts lines 885-895): clear the
tally and timestamps, close from HALF_OPEN, clear the probe latch. -/
def handleSuccess (s : IndexClient) : IndexClient :=
  let s1 : IndexClient :=
    { s with failureCount := 0, lastFailureTime := none }
  let s2 : IndexClient :=
    if s1.state = .halfOpen then { s1 with state := .closed } else s1
  { s2 with halfOpenProbeInProgress := false }

/-- Admission gate of ResilientClient.request (types/index.ts lines 727-732):
fetch is reached exactly when checkCircuitState grants; a rejection is
returned to the caller before any network code runs. -/
def requestFetchInvoked (now : Nat) (s : IndexClient) : Bool :=
  match (checkCircuitState now s).2 with
  | .granted => true
  | .rejected _ => false

end TypesIndex

namespace ArchMd

/-- Fields of the CircuitBreaker class of src/Architecture.md (lines 106-117).
The ReadonlySet failureTriggers is carried as a list of trigger counts
(default new Set([3])); openTimerPending embeds `openTimer !== null`. -/
structure CircuitBreaker where
  failureTriggers : List Nat := [3]
  openDurationMs : Nat := 5000
  state : BreakerState := .closed
  consecutiveFailures : Nat := 0
  openTimerPending : Bool := false
  halfOpenTrialInProgress : Bool := false
deriving DecidableEq, Repr

/-- A freshly constructed breaker with the default options of the
ResilientClient constructor (Architecture.md line 202). -/
def initialBreaker : CircuitBreaker := {}

/-- Verdict of CircuitBreaker.beforeRequest: either control returns normally
or a CircuitOpenError with the given retryAfterMs is thrown. -/
inductive BeforeRequest where
  | proceed
  | thrownOpen (retryAfterMs : Nat)
deriving DecidableEq, Repr

/-- CircuitBreaker.beforeRequest (Architecture.md lines 119-135): OPEN throws
CircuitOpenError(openDurationMs); HALF_OPEN with a trial in progress throws
CircuitOpenError(0); otherwise a HALF_OPEN caller takes the single trial
slot; CLOSED proceeds. -/
def beforeRequest (s : CircuitBreaker) : CircuitBreaker × BeforeRequest :=
  if s.state = .opened then
    (s, .thrownOpen s.openDurationMs)
  else if s.state = .halfOpen then
    if s.halfOpenTrialInProgress then
      (s, .thrownOpen 0)
    else
      ({ s with halfOpenTrialInProgress := true }, .proceed)
  else
    (s, .proceed)

/-- CircuitBreaker.moveToOpen (Architecture.md lines 166-179): open, zero the
tally, clear the trial latch, and (re)arm the timer that will later flip the
state to HALF_OPEN. -/
def moveToOpen (s : CircuitBreaker) : CircuitBreaker :=
  { s with state := .opened, consecutiveFailures := 0,
           halfOpenTrialInProgress := false, openTimerPending := true }

/-- The setTimeout callback armed by moveToOpen (Architecture.md lines
174-178): when the timer is pending it clears itself and moves the state to
HALF_OPEN; a cleared timer never fires. -/
def openTimerFire (s : CircuitBreaker) : CircuitBreaker :=
  if s.openTimerPending then
    { s with state := .halfOpen, openTimerPending := false }
  else s

/-- CircuitBreaker.reset (Architecture.md lines 181-189). -/
def resetBreaker (s : CircuitBreaker) : CircuitBreaker :=
  { s with state := .closed, consecutiveFailures := 0,
           halfOpenTrialInProgress := false, openTimerPending := false }

/-- CircuitBreaker.onSuccess (Architecture.md lines 137-147): a successful
HALF_OPEN trial resets everything; otherwise the tally is cleared; the trial
latch always ends false. -/
def onSuccess (s : CircuitBreaker) : CircuitBreaker :=
  if s.state = .halfOpen then
    resetBreaker s
  else
    { s with consecutiveFailures := 0, halfOpenTrialInProgress := false }

/-- CircuitBreaker.onFailure (Architecture.md lines 149-164): increment the
tally; if the new count is in failureTriggers, open; else a HALF_OPEN
failure opens as well. -/
def onFailure (s : CircuitBreaker) : CircuitBreaker :=
  let s1 : CircuitBreaker :=
    { s with consecutiveFailures := s.consecutiveFailures + 1 }
  if s1.consecutiveFailures ∈ s1.failureTriggers then
    moveToOpen s1
  else if s1.state = .halfOpen then
    moveToOpen s1
  else s1

/-- Observable behaviour of the admitted transport attempt in
ResilientClient.request: either fetch itself rejected (abortError true when
the rejection was the AbortError of the timed-out controller), or a response
arrived with the given status, whose body read either stays within
maxResponseBytes or not, and whose text parses as JSON or not. -/
inductive TransportOutcome where
  | fetchRejected (abortError : Bool)
  | responded (status : Nat) (oversized : Bool) (validJson : Bool)
deriving DecidableEq, Repr

/-- The typed result surfaced by one ResilientClient.request call. -/
inductive RequestResult where
  | circuitOpenError (retryAfterMs : Nat)
  | networkError (wasAbort : Bool)
  | httpError (status : Nat)
  | responseTooLarge
  | jsonParseError
  | parsedOk
deriving DecidableEq, Repr

/-- One request run: the breaker afterwards, the surfaced result, and how
many onFailure / onSuccess reports the run made to the breaker. -/
structure RequestTrace where
  breaker : CircuitBreaker
  result : RequestResult
  failureReports : Nat
  successReports : Nat
deriving DecidableEq, Repr

/-- ResilientClient.request (Architecture.md lines 227-308) together with
readResponseTextWithLimit (lines 310-344).  beforeRequest gates the attempt;
a fetch rejection reports onFailure; on a non-2xx status the diagnostic body
read runs BEFORE onFailure, so an oversized body throws ResponseTooLargeError
with no breaker report; on a 2xx status the body read likewise precedes
everything, then a parse failure reports onFailure and a parsed body reports
onSuccess. -/
def request (s : CircuitBreaker) (out : TransportOutcome) : RequestTrace :=
  match beforeRequest s with
  | (s1, .thrownOpen ms) => ⟨s1, .circuitOpenError ms, 0, 0⟩
  | (s1, .proceed) =>
    match out with
    | .fetchRejected ab => ⟨onFailure s1, .networkError ab, 1, 0⟩
    | .responded status oversized validJson =>
      if status < 200 ∨ 300 ≤ status then
        if oversized then ⟨s1, .responseTooLarge, 0, 0⟩
        else ⟨onFailure s1, .httpError status, 1, 0⟩
      else
        if oversized then ⟨s1, .responseTooLarge, 0, 0⟩
        else if !validJson then ⟨onFailure s1, .jsonParseError, 1, 0⟩
        else ⟨onSuccess s1, .parsedOk, 0, 1⟩

/-- An event the breaker can experience after a request run: another request
call (with any transport behaviour) or the pending open-timer firing. -/
inductive ClientEvent where
  | call (out : TransportOutcome)
  | timerFires
deriving DecidableEq, Repr

/-- Effect of one event on the breaker state. -/
def stepEvent (s : CircuitBreaker) : ClientEvent → CircuitBreaker
  | .call out => (request s out).breaker
  | .timerFires => openTimerFire s

end ArchMd

namespace Part009

/-- Fields of the CircuitBreaker class of src/unnamed/part_009 (lines 64-75,
metrics omitted) together with its config (failureThreshold 3, resetTimeout
5000, requestTimeout 10000 by default, lines 224-228). -/
structure Breaker where
  failureThreshold : Nat := 3
  resetTimeout : Nat := 5000
  requestTimeout : Nat := 10000
  state : BreakerState := .closed
  failureCount : Nat := 0
  lastFailureTime : Option Nat := none
deriving DecidableEq, Repr

/-- CircuitBreaker.getState (part_009 lines 195-197): returns the state
field; embedded as value plus unchanged breaker so that the absence of any
mutation is a provable fact. -/
def getState (s : Breaker) : BreakerState × Breaker :=
  (s.state, s)

/-- CircuitBreaker.canExecute (part_009 lines 81-103): CLOSED and HALF_OPEN
always execute; OPEN executes, moving to HALF_OPEN, once
`Date.now() - lastFailureTime >= resetTimeout` (embedded as
`t + resetTimeout <= now`; the JS truthy test on lastFailureTime is the
`some t` with `t` nonzero). -/
def canExecute (now : Nat) (s : Breaker) : Bool × Breaker :=
  if s.state = .closed then
    (true, s)
  else if s.state = .halfOpen then
    (true, s)
  else
    match s.lastFailureTime with
    | some t =>
      if t ≠ 0 ∧ t + s.resetTimeout ≤ now then
        (true, { s with state := .halfOpen })
      else (false, s)
    | none => (false, s)

/-- Catch clause of ResilientHttpClient.fetchWithTimeout (part_009 lines
259-286): an AbortError is replaced by a dedicated timeout Error naming the
deadline; every other error is rethrown unchanged. -/
def fetchWithTimeoutCatch (timeout : Nat) (e : Taller.RawFetchError) :
    Taller.SurfacedFailure :=
  match e with
  | .abortError =>
    .fetchTimeout ("Request timeout after " ++ toString timeout ++ "ms")
  | .other msg => .passthrough (.other msg)

end Part009

/-- The Architecture.md breaker just after its open-period timer moved it to
HALF_OPEN: trial latch clear, timer gone.  Used as the concrete entry state
of the wedged-probe witness. -/
def wedgeEntry : ArchMd.CircuitBreaker := { state := .halfOpen }

/-
  Helper lemmas (shared across claims).
-/

/-- Step shape of Taller.failure in the CLOSED state. -/
theorem taller_failure_closed (now : Nat) (s : Taller.TallerClient)
    (hs : s.state = .closed) :
    Taller.failure now s =
      { s with
        state :=
          if Taller.FAILURE_THRESHOLD ≤ s.failureCount + 1 then .opened
          else .closed,
        failureCount := s.failureCount + 1, lastFailureTime := now } := by
  by_cases hth : Taller.FAILURE_THRESHOLD ≤ s.failureCount + 1 <;>
    simp [Taller.failure, hs, hth]

/-- Step shape of Taller.failure in the OPEN state: no transition happens. -/
theorem taller_failure_opened (now : Nat) (s : Taller.TallerClient)
    (hs : s.state = .opened) :
    Taller.failure now s =
      { s with failureCount := s.failureCount + 1, lastFailureTime := now } := by
  simp [Taller.failure, hs]

/-- Step shape of Taller.failure in the HALF-OPEN state: reopen at once. -/
theorem taller_failure_halfOpen (now : Nat) (s : Taller.TallerClient)
    (hs : s.state = .halfOpen) :
    Taller.failure now s =
      { s with state := .opened, failureCount := s.failureCount + 1,
               lastFailureTime := now } := by
  simp [Taller.failure, hs]

/-- While OPEN and still inside the reset window (the code admits only when
`lastFailureTime + RESET_TIMEOUT_MS < now`), execute throws the fail-fast
error without invoking the action. -/
theorem taller_execute_open_rejects (s : Taller.TallerClient)
    (now : Nat) (actionOk : Bool) (hs : s.state = .opened)
    (h : now ≤ s.lastFailureTime + Taller.RESET_TIMEOUT_MS) :
    Taller.execute now actionOk s = ⟨s, false, .failFast⟩ := by
  have hnot : ¬ s.lastFailureTime + Taller.RESET_TIMEOUT_MS < now := by omega
  simp [Taller.execute, hs, hnot]

/-- Invariant of a run of consecutive failures: the count grows by the run
length and the state is CLOSED or OPEN exactly according to whether the
final count stays below FAILURE_THRESHOLD, provided the start state already
satisfies that correspondence. -/
theorem taller_applyFailures_spec (times : List Nat) (s : Taller.TallerClient)
    (h : (s.state = .closed ∧ s.failureCount < Taller.FAILURE_THRESHOLD) ∨
         (s.state = .opened ∧ Taller.FAILURE_THRESHOLD ≤ s.failureCount)) :
    (Taller.applyFailures times s).failureCount =
        s.failureCount + times.length ∧
    (Taller.applyFailures times s).state =
      (if s.failureCount + times.length < Taller.FAILURE_THRESHOLD
       then BreakerState.closed else BreakerState.opened) := by
  induction times generalizing s with
  | nil =>
    rcases h with ⟨hs, hc⟩ | ⟨hs, hc⟩
    · simp [Taller.applyFailures, hs, hc]
    · simp [Taller.applyFailures, hs, Nat.not_lt.mpr hc]
  | cons t ts ih =>
    have hstep : Taller.applyFailures (t :: ts) s =
        Taller.applyFailures ts (Taller.failure t s) := rfl
    have hcount : (Taller.failure t s).failureCount = s.failureCount + 1 := by
      rcases h with ⟨hs, _⟩ | ⟨hs, _⟩
      · rw [taller_failure_closed t s hs]
      · rw [taller_failure_opened t s hs]
    have hinv : ((Taller.failure t s).state = .closed ∧
          (Taller.failure t s).failureCount < Taller.FAILURE_THRESHOLD) ∨
        ((Taller.failure t s).state = .opened ∧
          Taller.FAILURE_THRESHOLD ≤ (Taller.failure t s).failureCount) := by
      rcases h with ⟨hs, hc⟩ | ⟨hs, hc⟩
      · rw [taller_failure_closed t s hs]
        by_cases hth : Taller.FAILURE_THRESHOLD ≤ s.failureCount + 1
        · exact Or.inr ⟨by simp [hth], by simpa using hth⟩
        · refine Or.inl ⟨by simp [hth], ?_⟩
          show s.failureCount + 1 < Taller.FAILURE_THRESHOLD
          omega
      · rw [taller_failure_opened t s hs]
        refine Or.inr ⟨hs, ?_⟩
        show Taller.FAILURE_THRESHOLD ≤ s.failureCount + 1
        omega
    obtain ⟨ihc, ihs⟩ := ih (Taller.failure t s) hinv
    rw [hstep]
    constructor
    · rw [ihc, hcount]
      simp only [List.length_cons]
      omega
    · rw [ihs, hcount]
      have hiff : (s.failureCount + 1 + ts.length < Taller.FAILURE_THRESHOLD) ↔
          (s.failureCount + (t :: ts).length < Taller.FAILURE_THRESHOLD) := by
        simp only [List.length_cons]
        omega
      by_cases hlt :
          s.failureCount + (t :: ts).length < Taller.FAILURE_THRESHOLD
      · rw [if_pos (hiff.mpr hlt), if_pos hlt]
      · rw [if_neg (fun hx => hlt (hiff.mp hx)), if_neg hlt]

/-
  Claim theorems.
-/

/-- C1: starting from CLOSED with a zero failure tally, a run of consecutive
reported failures leaves the breaker CLOSED after every failure before the
FAILURE_THRESHOLD-th one and OPEN from the FAILURE_THRESHOLD-th failure
onwards, so the CLOSED-to-OPEN transition happens exactly once, at the
threshold-th failure. -/
theorem c1_opens_exactly_at_threshold (times : List Nat) (k : Nat)
    (hk : k ≤ times.length) :
    (Taller.applyFailures (times.take k) Taller.initialClient).failureCount =
        k ∧
    (Taller.applyFailures (times.take k) Taller.initialClient).state =
      (if k < Taller.FAILURE_THRESHOLD then BreakerState.closed
       else BreakerState.opened) := by
  have h := taller_applyFailures_spec (times.take k) Taller.initialClient
    (Or.inl ⟨rfl, by decide⟩)
  have hlen : (times.take k).length = k := by
    rw [List.length_take]
    omega
  rw [hlen] at h
  simpa [Taller.initialClient] using h

/-- Witness for C1: a run of four failures at threshold three is CLOSED after
two failures, OPEN right at the third, and still OPEN at the fourth. -/
theorem c1_opens_exactly_at_threshold_witness :
    ((2 : Nat) ≤ ([100, 200, 300, 400] : List Nat).length ∧
      (Taller.applyFailures (([100, 200, 300, 400] : List Nat).take 2)
        Taller.initialClient).state = BreakerState.closed) ∧
    ((3 : Nat) ≤ ([100, 200, 300, 400] : List Nat).length ∧
      (Taller.applyFailures (([100, 200, 300, 400] : List Nat).take 3)
        Taller.initialClient).state = BreakerState.opened) ∧
    ((4 : Nat) ≤ ([100, 200, 300, 400] : List Nat).length ∧
      (Taller.applyFailures (([100, 200, 300, 400] : List Nat).take 4)
        Taller.initialClient).state = BreakerState.opened) := by
  refine ⟨⟨by decide, ?_⟩, ⟨by decide, ?_⟩, ⟨by decide, ?_⟩⟩
  · have h := c1_opens_exactly_at_threshold [100, 200, 300, 400] 2 (by decide)
    simpa using h.2
  · have h := c1_opens_exactly_at_threshold [100, 200, 300, 400] 3 (by decide)
    simpa using h.2
  · have h := c1_opens_exactly_at_threshold [100, 200, 300, 400] 4 (by decide)
    simpa using h.2

/-- C2: while OPEN with strictly less than RESET_TIMEOUT_MS elapsed since the
recorded failure time, execute throws the fail-fast CircuitBreakerOpenError,
the wrapped transport action is never invoked, and the breaker state is
unchanged. -/
theorem c2_open_rejects_without_transport (s : Taller.TallerClient)
    (now : Nat) (actionOk : Bool) (hs : s.state = .opened)
    (hcool : now < s.lastFailureTime + Taller.RESET_TIMEOUT_MS) :
    Taller.execute now actionOk s = ⟨s, false, .failFast⟩ :=
  taller_execute_open_rejects s now actionOk hs (Nat.le_of_lt hcool)

/-- Witness for C2: a breaker opened at time 1000 rejects a call at time 1500
without invoking the action. -/
theorem c2_open_rejects_without_transport_witness :
    (({ state := .opened, failureCount := 3, lastFailureTime := 1000 } :
        Taller.TallerClient).state = .opened) ∧
    ((1500 : Nat) < 1000 + Taller.RESET_TIMEOUT_MS) ∧
    Taller.execute 1500 true
        { state := .opened, failureCount := 3, lastFailureTime := 1000 } =
      ⟨{ state := .opened, failureCount := 3, lastFailureTime := 1000 },
        false, .failFast⟩ :=
  ⟨rfl, by decide,
    c2_open_rejects_without_transport _ 1500 true rfl (by decide)⟩

/-- C9: ResilientClient.success unconditionally sets the state to CLOSED and
the failure count to 0, whatever the state at report time was -- in
particular a success reported while the breaker is OPEN closes the circuit
immediately. -/
theorem c9_success_unconditionally_closes (s : Taller.TallerClient) :
    Taller.success s = { s with state := .closed, failureCount := 0 } := rfl

/-- C3: once the cooldown has elapsed (the code's
`now - lastFailureTime >= halfOpenAfterMs`), the next admission check moves
the breaker from OPEN to HALF_OPEN and grants the call, latching the probe;
while that probe is outstanding every further admission check is rejected
with the HalfOpenProbeRejected error, with no state change and no fetch, so
at most one probe is ever outstanding in HALF_OPEN.  Proved over the
types/index.ts ResilientClient, whose checkCircuitState is the cited
admission logic. -/
theorem c3_cooldown_single_probe (s : TypesIndex.IndexClient) (t now : Nat)
    (hs : s.state = .opened) (hlt : s.lastFailureTime = some t)
    (helapsed : t + s.halfOpenAfterMs ≤ now) :
    (TypesIndex.checkCircuitState now s).2 = .granted ∧
    (TypesIndex.checkCircuitState now s).1 =
      { s with state := .halfOpen, halfOpenProbeInProgress := true } ∧
    (∀ now2 : Nat,
      TypesIndex.checkCircuitState now2
          { s with state := .halfOpen, halfOpenProbeInProgress := true } =
        ({ s with state := .halfOpen, halfOpenProbeInProgress := true },
          .rejected ("HalfOpenProbeRejected"))) ∧
    (∀ now2 : Nat,
      TypesIndex.requestFetchInvoked now2
          { s with state := .halfOpen, halfOpenProbeInProgress := true } =
        false) := by
  have hmain : TypesIndex.checkCircuitState now s =
      ({ s with state := .halfOpen, halfOpenProbeInProgress := true },
        .granted) := by
    simp [TypesIndex.checkCircuitState, hs, hlt, helapsed]
  have hrej : ∀ now2 : Nat,
      TypesIndex.checkCircuitState now2
          { s with state := .halfOpen, halfOpenProbeInProgress := true } =
        ({ s with state := .halfOpen, halfOpenProbeInProgress := true },
          .rejected ("HalfOpenProbeRejected")) := by
    intro now2
    simp [TypesIndex.checkCircuitState, hlt]
  refine ⟨by rw [hmain], by rw [hmain], hrej, ?_⟩
  intro now2
  simp [TypesIndex.requestFetchInvoked, hrej now2]

/-- Witness for C3: a breaker opened at time 1000 with the default 5000ms
window grants the probe at time 6000 and rejects a second admission check
made while the probe is outstanding. -/
theorem c3_cooldown_single_probe_witness :
    (({ state := .opened, failureCount := 3, lastFailureTime := some 1000 } :
        TypesIndex.IndexClient).state = .opened) ∧
    ((1000 : Nat) +
        ({ state := .opened, failureCount := 3,
           lastFailureTime := some 1000 } :
          TypesIndex.IndexClient).halfOpenAfterMs ≤ 6000) ∧
    (TypesIndex.checkCircuitState 6000
        { state := .opened, failureCount := 3,
          lastFailureTime := some 1000 }).2 = .granted ∧
    (TypesIndex.checkCircuitState 6001
        { state := .halfOpen, failureCount := 3, lastFailureTime := some 1000,
          halfOpenProbeInProgress := true }).2 =
      .rejected ("HalfOpenProbeRejected") := by
  have h := c3_cooldown_single_probe
    { state := .opened, failureCount := 3, lastFailureTime := some 1000 }
    1000 6000 rfl rfl (by decide)
  exact ⟨rfl, by decide, h.1, congrArg Prod.snd (h.2.2.1 6001)⟩

/-- C4: reporting the HALF-OPEN probe outcome: a success sets the state to
CLOSED with a zero failure count, while a failure sets the state back to
OPEN and stamps lastFailureTime with the failure time, after which every
execute call within the full RESET_TIMEOUT_MS window is rejected fail-fast
without a transport attempt. -/
theorem c4_probe_outcome (s : Taller.TallerClient) (now : Nat)
    (hs : s.state = .halfOpen) :
    (Taller.success s).state = .closed ∧
    (Taller.success s).failureCount = 0 ∧
    (Taller.failure now s).state = .opened ∧
    (Taller.failure now s).lastFailureTime = now ∧
    (∀ (now2 : Nat) (actionOk : Bool),
      now2 ≤ now + Taller.RESET_TIMEOUT_MS →
        Taller.execute now2 actionOk (Taller.failure now s) =
          ⟨Taller.failure now s, false, .failFast⟩) := by
  have hf := taller_failure_halfOpen now s hs
  refine ⟨rfl, rfl, by rw [hf], by rw [hf], ?_⟩
  intro now2 actionOk hwin
  refine taller_execute_open_rejects _ now2 actionOk (by rw [hf]) ?_
  rw [hf]
  exact hwin

/-- Witness for C4: a failed probe at time 7000 reopens the breaker and a
retry at time 11999 is still rejected without a transport attempt. -/
theorem c4_probe_outcome_witness :
    (({ state := .halfOpen, failureCount := 3, lastFailureTime := 1000 } :
        Taller.TallerClient).state = .halfOpen) ∧
    (Taller.failure 7000
        { state := .halfOpen, failureCount := 3,
          lastFailureTime := 1000 }).state = .opened ∧
    ((11999 : Nat) ≤ 7000 + Taller.RESET_TIMEOUT_MS) ∧
    Taller.execute 11999 true
        (Taller.failure 7000
          { state := .halfOpen, failureCount := 3, lastFailureTime := 1000 }) =
      ⟨Taller.failure 7000
        { state := .halfOpen, failureCount := 3, lastFailureTime := 1000 },
        false, .failFast⟩ := by
  have h := c4_probe_outcome
    { state := .halfOpen, failureCount := 3, lastFailureTime := 1000 }
    7000 rfl
  exact ⟨rfl, h.2.2.1, by decide, h.2.2.2.2 11999 true (by decide)⟩

/-- C5 counterexample: a failing call with a valid userId (here: the
transport action rejects, the execute layer surfaces the rethrown error)
makes the public getUserData RESOLVE with null instead of returning or
throwing a typed error -- refuting the claim that it never resolves with a
null value in place of the error. -/
theorem c5_counterexample :
    (Taller.execute 0 false Taller.initialClient).outcome = .err ∧
    (Taller.getUserData 0 true false Taller.sampleUser
        Taller.initialClient).2 = .resolved none := by
  decide

/-- C5 amended: every failure of an admitted or rejected call is surfaced as
a typed error only internally (the execute layer rethrows it); the public
getUserData of the taller variant catches every such failure, logs, and
resolves with null, while a falsy userId is the one failure thrown to the
caller. -/
theorem c5_amended_null_on_failure (now : Nat) (u : Taller.UserRecord)
    (s : Taller.TallerClient) (actionOk : Bool)
    (hfail : (Taller.execute now actionOk s).outcome ≠ .ok) :
    Taller.getUserData now true actionOk u s =
      ((Taller.execute now actionOk s).state, .resolved none) ∧
    Taller.getUserData now false actionOk u s =
      (s, .thrown ("userId is required.")) := by
  constructor
  · cases ho : (Taller.execute now actionOk s).outcome with
    | ok => exact absurd ho hfail
    | failFast => simp [Taller.getUserData, ho]
    | err => simp [Taller.getUserData, ho]
  · simp [Taller.getUserData]

/-- Witness for C5 amended: a rejected transport action at time 0 on a fresh
client resolves with null. -/
theorem c5_amended_null_on_failure_witness :
    ((Taller.execute 0 false Taller.initialClient).outcome ≠ .ok) ∧
    Taller.getUserData 0 true false Taller.sampleUser Taller.initialClient =
      ((Taller.execute 0 false Taller.initialClient).state,
        .resolved none) := by
  refine ⟨by decide, ?_⟩
  exact (c5_amended_null_on_failure 0 Taller.sampleUser Taller.initialClient
    false (by decide)).1

/-- When Architecture.md's beforeRequest lets a request proceed, the tally
and the state it hands to the attempt are those the breaker already had. -/
theorem archmd_beforeRequest_proceed (s : ArchMd.CircuitBreaker)
    (h : (ArchMd.beforeRequest s).2 = .proceed) :
    (ArchMd.beforeRequest s).1.consecutiveFailures = s.consecutiveFailures ∧
    (ArchMd.beforeRequest s).1.state = s.state := by
  cases hstate : s.state with
  | closed => simp [ArchMd.beforeRequest, hstate]
  | opened => simp [ArchMd.beforeRequest, hstate] at h
  | halfOpen =>
    cases htr : s.halfOpenTrialInProgress with
    | false => simp [ArchMd.beforeRequest, hstate, htr]
    | true => simp [ArchMd.beforeRequest, hstate, htr] at h

/-- C6 counterexample: on a fresh Architecture.md client, an admitted call
whose 2xx response body exceeds maxResponseBytes surfaces
ResponseTooLargeError, yet the breaker receives ZERO onFailure reports and
the consecutive-failure tally is unchanged -- refuting the claim that the
oversized outcome is reported to the breaker exactly once as a failure. -/
theorem c6_counterexample :
    (ArchMd.request ArchMd.initialBreaker (.responded 200 true true)).result =
        .responseTooLarge ∧
    (ArchMd.request ArchMd.initialBreaker
        (.responded 200 true true)).failureReports = 0 ∧
    (ArchMd.request ArchMd.initialBreaker (.responded 200 true true)).breaker =
      ArchMd.initialBreaker := by
  decide

/-- C6 amended: every admitted call whose response body exceeds
maxResponseBytes yields ResponseTooLargeError, but that outcome is never
reported to the breaker: neither onFailure nor onSuccess runs, so the
consecutive-failure tally and the breaker state are left exactly as
admission left them. -/
theorem c6_amended_oversized_unreported (s : ArchMd.CircuitBreaker)
    (status : Nat) (vj : Bool)
    (hgo : (ArchMd.beforeRequest s).2 = .proceed) :
    (ArchMd.request s (.responded status true vj)).result =
        .responseTooLarge ∧
    (ArchMd.request s (.responded status true vj)).failureReports = 0 ∧
    (ArchMd.request s (.responded status true vj)).successReports = 0 ∧
    (ArchMd.request s (.responded status true vj)).breaker.consecutiveFailures
        = s.consecutiveFailures ∧
    (ArchMd.request s (.responded status true vj)).breaker.state = s.state := by
  obtain ⟨hc, hst⟩ := archmd_beforeRequest_proceed s hgo
  have hreq : ArchMd.request s (.responded status true vj) =
      ⟨(ArchMd.beforeRequest s).1, .responseTooLarge, 0, 0⟩ := by
    rcases hbr : ArchMd.beforeRequest s with ⟨s1, br⟩
    cases br with
    | thrownOpen ms =>
      rw [hbr] at hgo
      simp at hgo
    | proceed =>
      by_cases hstat : status < 200 ∨ 300 ≤ status <;>
        simp [ArchMd.request, hbr, hstat]
  rw [hreq]
  exact ⟨rfl, rfl, rfl, hc, hst⟩

/-- Witness for C6 amended: admitted oversized call on a fresh breaker. -/
theorem c6_amended_oversized_unreported_witness :
    ((ArchMd.beforeRequest ArchMd.initialBreaker).2 = .proceed) ∧
    (ArchMd.request ArchMd.initialBreaker
        (.responded 200 true true)).failureReports = 0 ∧
    (ArchMd.request ArchMd.initialBreaker
        (.responded 200 true true)).breaker.consecutiveFailures =
      ArchMd.initialBreaker.consecutiveFailures := by
  have h := c6_amended_oversized_unreported ArchMd.initialBreaker 200 true
    (by decide)
  exact ⟨by decide, h.2.1, h.2.2.2.1⟩

/-- C7: an attempt whose deadline timer fired surfaces the dedicated timeout
failure, while any other raw fetch error is passed through unchanged, and a
timeout failure is never equal to a passed-through transport failure -- in
both the taller fetchAction and the part_009 fetchWithTimeout. -/
theorem c7_timeout_reason_distinct :
    (∀ e : Taller.RawFetchError,
      Taller.fetchActionCatch true e =
        .fetchTimeout ("Fetch timeout after 3000ms")) ∧
    (∀ e : Taller.RawFetchError,
      Taller.fetchActionCatch false e = .passthrough e) ∧
    (∀ t : Nat,
      Part009.fetchWithTimeoutCatch t .abortError =
        .fetchTimeout ("Request timeout after " ++ toString t ++ "ms")) ∧
    (∀ (t : Nat) (msg : String),
      Part009.fetchWithTimeoutCatch t (.other msg) =
        .passthrough (.other msg)) ∧
    (∀ (m : String) (e : Taller.RawFetchError),
      Taller.SurfacedFailure.fetchTimeout m ≠ .passthrough e) := by
  refine ⟨fun e => rfl, fun e => rfl, fun t => rfl,
    fun t msg => rfl, fun m e h => Taller.SurfacedFailure.noConfusion h⟩

/-- Witness for C7 at concrete inputs: a timed-out attempt and a transport
error surface different failures. -/
theorem c7_timeout_reason_distinct_witness :
    Taller.fetchActionCatch true (.other ("ECONNREFUSED")) =
      .fetchTimeout ("Fetch timeout after 3000ms") ∧
    Taller.fetchActionCatch false (.other ("ECONNREFUSED")) =
      .passthrough (.other ("ECONNREFUSED")) ∧
    Taller.SurfacedFailure.fetchTimeout ("Fetch timeout after 3000ms") ≠
      .passthrough (.other ("ECONNREFUSED")) :=
  ⟨c7_timeout_reason_distinct.1 _, c7_timeout_reason_distinct.2.1 _,
    c7_timeout_reason_distinct.2.2.2.2 _ _⟩

/-- A wedged Architecture.md breaker -- HALF_OPEN with the trial latch held
and no pending timer -- rejects every request fail-fast without reports and
is left unchanged by any sequence of further requests and timer events. -/
theorem archmd_wedged_absorbing (s : ArchMd.CircuitBreaker)
    (hs : s.state = .halfOpen) (ht : s.halfOpenTrialInProgress = true)
    (hp : s.openTimerPending = false) :
    (∀ out, ArchMd.request s out = ⟨s, .circuitOpenError 0, 0, 0⟩) ∧
    (∀ evs : List ArchMd.ClientEvent, evs.foldl ArchMd.stepEvent s = s) := by
  have hbr : ArchMd.beforeRequest s = (s, .thrownOpen 0) := by
    simp [ArchMd.beforeRequest, hs, ht]
  have hreq : ∀ out, ArchMd.request s out =
      ⟨s, .circuitOpenError 0, 0, 0⟩ := by
    intro out
    simp [ArchMd.request, hbr]
  refine ⟨hreq, ?_⟩
  intro evs
  induction evs with
  | nil => rfl
  | cons ev rest ih =>
    have hstep : ArchMd.stepEvent s ev = s := by
      cases ev with
      | call out => simp [ArchMd.stepEvent, hreq out]
      | timerFires => simp [ArchMd.stepEvent, ArchMd.openTimerFire, hp]
    rw [List.foldl_cons, hstep]
    exact ih

/-- C8: in the Architecture.md variant, when the single HALF_OPEN probe
terminates with ResponseTooLargeError, neither onSuccess nor onFailure is
invoked (zero reports) and halfOpenTrialInProgress is left true; from that
state every subsequent request is rejected fail-fast with
CircuitOpenError(0) and no sequence of further requests or timer events
ever changes the breaker, so it never leaves HALF_OPEN. -/
theorem c8_oversized_probe_wedges_half_open (s : ArchMd.CircuitBreaker)
    (status : Nat) (vj : Bool) (hs : s.state = .halfOpen)
    (ht : s.halfOpenTrialInProgress = false)
    (hp : s.openTimerPending = false) :
    ArchMd.request s (.responded status true vj) =
      ⟨{ s with halfOpenTrialInProgress := true },
        .responseTooLarge, 0, 0⟩ ∧
    (∀ out, ArchMd.request { s with halfOpenTrialInProgress := true } out =
      ⟨{ s with halfOpenTrialInProgress := true },
        .circuitOpenError 0, 0, 0⟩) ∧
    (∀ evs : List ArchMd.ClientEvent,
      evs.foldl ArchMd.stepEvent { s with halfOpenTrialInProgress := true } =
        { s with halfOpenTrialInProgress := true }) := by
  have hbr : ArchMd.beforeRequest s =
      ({ s with halfOpenTrialInProgress := true }, .proceed) := by
    simp [ArchMd.beforeRequest, hs, ht]
  have h1 : ArchMd.request s (.responded status true vj) =
      ⟨{ s with halfOpenTrialInProgress := true },
        .responseTooLarge, 0, 0⟩ := by
    by_cases hstat : status < 200 ∨ 300 ≤ status <;>
      simp [ArchMd.request, hbr, hstat]
  have habs := archmd_wedged_absorbing
    { s with halfOpenTrialInProgress := true } hs rfl hp
  exact ⟨h1, habs.1, habs.2⟩

/-- Witness for C8: a fresh HALF_OPEN breaker wedged by an oversized probe
rejects a later request and survives a timer event unchanged. -/
theorem c8_oversized_probe_wedges_half_open_witness :
    (wedgeEntry.state = .halfOpen ∧
      wedgeEntry.halfOpenTrialInProgress = false ∧
      wedgeEntry.openTimerPending = false) ∧
    ArchMd.request wedgeEntry (.responded 200 true true) =
      ⟨{ wedgeEntry with halfOpenTrialInProgress := true },
        .responseTooLarge, 0, 0⟩ ∧
    ArchMd.request { wedgeEntry with halfOpenTrialInProgress := true }
        (.fetchRejected false) =
      ⟨{ wedgeEntry with halfOpenTrialInProgress := true },
        .circuitOpenError 0, 0, 0⟩ ∧
    ([.timerFires, .call (.fetchRejected false)] :
        List ArchMd.ClientEvent).foldl ArchMd.stepEvent
        { wedgeEntry with halfOpenTrialInProgress := true } =
      { wedgeEntry with halfOpenTrialInProgress := true } := by
  have h := c8_oversized_probe_wedges_half_open wedgeEntry 200 true rfl rfl rfl
  exact ⟨⟨rfl, rfl, rfl⟩, h.1, h.2.1 _, h.2.2 _⟩

/-- C10: the state observers are pure reads: part_009's getState returns the
state field and leaves the breaker untouched, so after the cooldown has
elapsed it still reports OPEN; the OPEN to HALF_OPEN move happens only
inside the admission check canExecute of a later call; and the taller
getBreakerState likewise returns the state field without mutation. -/
theorem c10_observer_pure_read (s : Part009.Breaker) (t now : Nat)
    (hs : s.state = .opened) (hlt : s.lastFailureTime = some t) (ht : t ≠ 0)
    (helapsed : t + s.resetTimeout ≤ now) :
    Part009.getState s = (BreakerState.opened, s) ∧
    Part009.canExecute now s = (true, { s with state := .halfOpen }) ∧
    (∀ c : Taller.TallerClient, Taller.getBreakerState c = (c.state, c)) := by
  refine ⟨?_, ?_, fun c => rfl⟩
  · simp [Part009.getState, hs]
  · simp [Part009.canExecute, hs, hlt, ht, helapsed]

/-- Witness for C10: a breaker opened at time 1000 still reads OPEN at time
6000 while the admission check at 6000 would transition it. -/
theorem c10_observer_pure_read_witness :
    (({ state := .opened, failureCount := 3, lastFailureTime := some 1000 } :
        Part009.Breaker).state = .opened) ∧
    ((1000 : Nat) ≠ 0) ∧
    ((1000 : Nat) +
        ({ state := .opened, failureCount := 3,
           lastFailureTime := some 1000 } : Part009.Breaker).resetTimeout ≤
      6000) ∧
    Part009.getState
        { state := .opened, failureCount := 3,
          lastFailureTime := some 1000 } =
      (BreakerState.opened,
        { state := .opened, failureCount := 3,
          lastFailureTime := some 1000 }) := by
  have h := c10_observer_pure_read
    { state := .opened, failureCount := 3, lastFailureTime := some 1000 }
    1000 6000 rfl rfl (by decide) (by decide)
  exact ⟨rfl, by decide, by decide, h.1⟩
